import Mathlib

/-!
# Root-key provisioning and key derivation on the CC310 (src/main.c)

A shallow embedding of the five functions of `src/main.c`
(`is_kdr_set`, `set_lcs_secure`, `set_kdr`, `key_derivation`, `main`) as
state-passing Lean functions over an abstract hardware backend, followed by
theorems about the register accesses, the diagnostics and the key buffer.

Modelling conventions.

* The memory-mapped peripherals are a `Hardware σ`: a state type `σ`, the value
  a register currently reads back as, and the effect of a register write.  The
  effect of a write is left to the backend, so write-once registers, read-only
  status fields and set-indicators are all instances.  A read does not change
  the hardware state.
* Every register access, every `INTEG_TEST_PRINT` and every call of the KDF
  primitive is appended to a trace, in program order.
* Constants that come from SDK headers outside the repository
  (`CC_HOST_RGF_HOST_IOT_LCS_*`, `SASI_UTIL_OK`) are fields of `SdkConsts`.
* Registers are 32 bits wide: a read yields the value of the backend modulo
  `2 ^ 32`, and the one computed value that is written (`Secure << Pos`) is
  reduced modulo `2 ^ 32`.
-/

namespace KdrExample

/-! ## Data model -/

/-- The registers touched by `main.c`: `NRF_CRYPTOCELL->ENABLE`, the
`NRF_CC_HOST_RGF` lifecycle and root-key registers, and the two
`NRF_FICR->DEVICEID` words. -/
inductive Reg where
  | ENABLE
  | HOST_IOT_LCS
  | HOST_IOT_KDR0
  | HOST_IOT_KDR1
  | HOST_IOT_KDR2
  | HOST_IOT_KDR3
  | DEVICEID0
  | DEVICEID1
  deriving DecidableEq, Repr

/-- The key selector of the KDF primitive (`SaSiUtilKeyType_t`). -/
inductive SaSiUtilKeyType where
  | SASI_UTIL_USER_KEY
  | SASI_UTIL_ROOT_KEY
  deriving DecidableEq, Repr

/-- The eight arguments of one `SaSi_UtilKeyDerivation` call, the output buffer
being represented by its size.  `userKey = none` is the `NULL` pointer. -/
structure KdfCall where
  keyType : SaSiUtilKeyType
  userKey : Option (List Nat)
  label : List Nat
  labelSize : Nat
  context : List Nat
  contextSize : Nat
  outSize : Nat
  deriving DecidableEq, Repr

/-- One observable step of the program. -/
inductive Event where
  | write (r : Reg) (v : Nat)
  | read (r : Reg) (v : Nat)
  | print (fmt : String) (args : List Nat)
  | kdf (call : KdfCall)
  deriving DecidableEq, Repr

/-- The 16-byte array `secret_key`. -/
abbrev KeyBuf := Fin 16 → Nat

/-- The hardware backend: what a register reads back as in a given state, and
the state after a register write. -/
structure Hardware (σ : Type) where
  read : σ → Reg → Nat
  write : σ → Reg → Nat → σ

/-- The 32-bit value register `r` reads back as in hardware state `s`. -/
def Hardware.readback {σ : Type} (H : Hardware σ) (s : σ) (r : Reg) : Nat :=
  H.read s r % 2 ^ 32

/-- The KDF primitive `SaSi_UtilKeyDerivation` as an external collaborator: from
the hardware state, the call arguments and the current content of the output
buffer it yields a status code and the new content of the output buffer. -/
abbrev Kdf (σ : Type) := σ → KdfCall → KeyBuf → Nat × KeyBuf

/-- Constants of the SDK headers that `main.c` uses but does not define. -/
structure SdkConsts where
  LCS_Pos : Nat
  LCS_Msk : Nat
  LCS_Secure : Nat
  LCS_IS_VALID_Pos : Nat
  LCS_IS_VALID_Msk : Nat
  LCS_IS_VALID_Valid : Nat
  SASI_UTIL_OK : Nat

/-- The hardware state together with the trace of what the program did so far. -/
structure World (σ : Type) where
  hw : σ
  trace : List Event

/-- The world at the start of a run: hardware state `s`, nothing done yet. -/
def World.init {σ : Type} (s : σ) : World σ :=
  { hw := s, trace := [] }

/-! ## Primitive steps -/

/-- A register read: the value is taken from the hardware and the access is
recorded. -/
def regRead {σ : Type} (H : Hardware σ) (r : Reg) (w : World σ) : Nat × World σ :=
  (H.readback w.hw r, { w with trace := w.trace ++ [Event.read r (H.readback w.hw r)] })

/-- A register write: the hardware reacts and the access is recorded. -/
def regWrite {σ : Type} (H : Hardware σ) (r : Reg) (v : Nat) (w : World σ) : World σ :=
  { hw := H.write w.hw r v, trace := w.trace ++ [Event.write r v] }

/-- One `INTEG_TEST_PRINT(fmt, args...)`. -/
def INTEG_TEST_PRINT {σ : Type} (fmt : String) (args : List Nat) (w : World σ) : World σ :=
  { w with trace := w.trace ++ [Event.print fmt args] }

/-- Modelled from the spec: `SaSi_PalMemSetZero(target, size)` of `ssi_pal_mem.h`,
which is not part of the repository; it overwrites the first `size` bytes of the
target with zero bytes. -/
def SaSi_PalMemSetZero (buf : KeyBuf) (size : Nat) : KeyBuf :=
  fun i => if i.val < size then 0 else buf i

/-- The object representation of a `uint32_t` on the little-endian Cortex-M4:
four bytes, least significant first. -/
def wordBytes (x : Nat) : List Nat :=
  [x % 256, x / 256 % 256, x / 65536 % 256, x / 16777216 % 256]

/-- The array `key_label[11] = {"KEY ENC KEY"}`. -/
def key_label : List Nat :=
  "KEY ENC KEY".toList.map Char.toNat

/-- The field extraction `(v & Msk) >> Pos` of the validity field. -/
def lcsIsValidField (c : SdkConsts) (v : Nat) : Nat :=
  (v &&& c.LCS_IS_VALID_Msk) >>> c.LCS_IS_VALID_Pos

/-- The field extraction `(v & Msk) >> Pos` of the lifecycle-state field. -/
def lcsField (c : SdkConsts) (v : Nat) : Nat :=
  (v &&& c.LCS_Msk) >>> c.LCS_Pos

/-- The value `CC_HOST_RGF_HOST_IOT_LCS_LCS_Secure << CC_HOST_RGF_HOST_IOT_LCS_LCS_Pos`
as a 32-bit word. -/
def lcsSecureWord (c : SdkConsts) : Nat :=
  (c.LCS_Secure <<< c.LCS_Pos) % 2 ^ 32

/-! ## The functions of main.c -/

/-- `is_kdr_set` (main.c lines 60-69).  The condition reads `HOST_IOT_KDR0` up to
four times, `&&` stopping at the first comparison that fails.  When the
condition holds the function returns `true`; otherwise control reaches the
closing brace without a `return`, which is `none` here. -/
def is_kdr_set {σ : Type} (H : Hardware σ) (w : World σ) : Option Bool × World σ :=
  let (a, w1) := regRead H Reg.HOST_IOT_KDR0 w
  if a = 1 then
    let (b, w2) := regRead H Reg.HOST_IOT_KDR0 w1
    if b = 1 then
      let (c, w3) := regRead H Reg.HOST_IOT_KDR0 w2
      if c = 1 then
        let (d, w4) := regRead H Reg.HOST_IOT_KDR0 w3
        if d = 1 then (some true, w4) else (none, w4)
      else (none, w3)
    else (none, w2)
  else (none, w1)

/-- `set_lcs_secure` (main.c lines 71-91). -/
def set_lcs_secure {σ : Type} (H : Hardware σ) (c : SdkConsts) (w : World σ) : World σ :=
  let w1 := regWrite H Reg.HOST_IOT_LCS (lcsSecureWord c) w
  let (_, w2) := regRead H Reg.HOST_IOT_LCS w1
  let (v, w3) := regRead H Reg.HOST_IOT_LCS w2
  let w4 := if lcsIsValidField c v ≠ c.LCS_IS_VALID_Valid
    then INTEG_TEST_PRINT "LCS is invalid! \n" [] w3 else w3
  let (u, w5) := regRead H Reg.HOST_IOT_LCS w4
  if lcsField c u ≠ c.LCS_Secure
    then INTEG_TEST_PRINT "LCS not secure! \n" [] w5 else w5

/-- `set_kdr` (main.c lines 94-127).  The function is `void`: the `Unit` component
is all the caller receives.  When `is_kdr_set` ends without a `return`, the
value tested by `!is_kdr_set()` is not defined by the C language; `indet` stands
for whatever value the caller then observes, and every statement about
`set_kdr` below holds for both values. -/
def set_kdr {σ : Type} (H : Hardware σ) (c : SdkConsts) (indet : Bool) (w : World σ) :
    Unit × World σ :=
  let w1 := regWrite H Reg.ENABLE 1 w
  let w2 := set_lcs_secure H c w1
  let w3 := regWrite H Reg.HOST_IOT_KDR0 0xBADEBA11 w2
  let w4 := regWrite H Reg.HOST_IOT_KDR1 0xBADEBA11 w3
  let w5 := regWrite H Reg.HOST_IOT_KDR2 0xBADEBA11 w4
  let w6 := regWrite H Reg.HOST_IOT_KDR3 0xBADEBA11 w5
  let r := is_kdr_set H w6
  if !(r.1.getD indet) then ((), INTEG_TEST_PRINT "KDR not set correctly\n" [] r.2)
  else ((), r.2)

/-- The statements of `key_derivation` from the declaration of `secret_key` on
(main.c lines 145-170), with the two constant arrays and their `sizeof` taken as
arguments.  The result is the content of `secret_key` when the function
returns. -/
def key_derivation_body {σ : Type} (kdf : Kdf σ) (c : SdkConsts)
    (label : List Nat) (context : List Nat) (w : World σ) : KeyBuf × World σ :=
  let secret_key : KeyBuf := fun _ => 0
  let call : KdfCall :=
    { keyType := SaSiUtilKeyType.SASI_UTIL_ROOT_KEY
      userKey := none
      label := label
      labelSize := label.length
      context := context
      contextSize := context.length
      outSize := 16 }
  let out := kdf w.hw call secret_key
  let err := out.1
  let w1 : World σ := { w with trace := w.trace ++ [Event.kdf call] }
  let w2 := if err ≠ c.SASI_UTIL_OK
    then INTEG_TEST_PRINT "Error wile deriving key. Err code: %u\n" [err] w1
    else INTEG_TEST_PRINT "Successfully derived key \n" [] w1
  (SaSi_PalMemSetZero out.2 16, w2)

/-- `key_derivation` (main.c lines 130-171): the label is `key_label`, the context
is the bytes of the two device-id words read from `NRF_FICR->DEVICEID`.  The two
reads sit in one initializer list; the trace lists them in textual order. -/
def key_derivation {σ : Type} (H : Hardware σ) (kdf : Kdf σ) (c : SdkConsts) (w : World σ) :
    KeyBuf × World σ :=
  let (d0, w1) := regRead H Reg.DEVICEID0 w
  let (d1, w2) := regRead H Reg.DEVICEID1 w1
  key_derivation_body kdf c key_label (wordBytes d0 ++ wordBytes d1) w2

/-- `main` (main.c lines 174-195).  `setupRet` is what `integration_tests_setup`
returns. -/
def main {σ : Type} (H : Hardware σ) (kdf : Kdf σ) (c : SdkConsts) (indet : Bool)
    (setupRet : Int) (w : World σ) : Int × World σ :=
  if setupRet ≠ 0 then
    (setupRet, INTEG_TEST_PRINT "integration_tests_setup failed\n" [] w)
  else
    let w1 := (set_kdr H c indet w).2
    let w2 := (key_derivation H kdf c w1).2
    (setupRet, w2)

/-! ## Projections of the trace -/

/-- The register writes of a trace, in order. -/
def regWrites (t : List Event) : List (Reg × Nat) :=
  t.filterMap fun e => match e with
    | Event.write r v => some (r, v)
    | _ => none

/-- The register accesses (reads and writes) of a trace, in order. -/
def regAccesses (t : List Event) : List Event :=
  t.filter fun e => match e with
    | Event.write _ _ => true
    | Event.read _ _ => true
    | _ => false

/-- The printed messages of a trace, in order. -/
def prints (t : List Event) : List (String × List Nat) :=
  t.filterMap fun e => match e with
    | Event.print f a => some (f, a)
    | _ => none

/-- The KDF calls of a trace, in order. -/
def kdfCalls (t : List Event) : List KdfCall :=
  t.filterMap fun e => match e with
    | Event.kdf k => some k
    | _ => none

/-! ## Concrete instances -/

/-- The values of the nRF52840 MDK header `nrf52840_bitfields.h` and of
`ssi_util_error.h`. -/
def nrf52840 : SdkConsts :=
  { LCS_Pos := 0
    LCS_Msk := 0x7
    LCS_Secure := 2
    LCS_IS_VALID_Pos := 8
    LCS_IS_VALID_Msk := 0x100
    LCS_IS_VALID_Valid := 1
    SASI_UTIL_OK := 0 }

/-- A simulated backend on which provisioning succeeds.  Its state is the table
of read-back values: a write to the lifecycle register latches the three state
bits and raises the validity bit, a write to `HOST_IOT_KDR0` raises the
indicator read at `HOST_IOT_KDR0`, the other key registers are write-only, and
`ENABLE` stores the value written. -/
def cc310 : Hardware (Reg → Nat) :=
  { read := fun s r => s r
    write := fun s r v => match r with
      | Reg.ENABLE => Function.update s Reg.ENABLE v
      | Reg.HOST_IOT_LCS => Function.update s Reg.HOST_IOT_LCS (v % 8 + 256)
      | Reg.HOST_IOT_KDR0 => Function.update s Reg.HOST_IOT_KDR0 1
      | _ => s }

/-- A backend whose registers ignore every write, as write-once registers do
once they have been written in the current reset cycle. -/
def lockedHw : Hardware (Reg → Nat) :=
  { read := fun s r => s r
    write := fun s _ _ => s }

/-- A KDF stub that reports `status` and fills the output buffer with `0xAA`. -/
def stubKdf (status : Nat) : Kdf (Reg → Nat) :=
  fun _ _ _ => (status, fun _ => 0xAA)

/-- All registers read zero except the two device-id words. -/
def resetState : Reg → Nat :=
  fun r => match r with
    | Reg.DEVICEID0 => 0x01020304
    | Reg.DEVICEID1 => 0x05060708
    | _ => 0

/-- All registers read zero except the device-id words and `HOST_IOT_KDR0`,
which reads as set. -/
def kdr0OnlyState : Reg → Nat :=
  Function.update resetState Reg.HOST_IOT_KDR0 1

/-! ## Vocabulary of the statements -/

/-- The value the lifecycle register reads back as once `set_lcs_secure` has
written it, starting from hardware state `s`. -/
def lcsReadback {σ : Type} (H : Hardware σ) (c : SdkConsts) (s : σ) : Nat :=
  H.readback (H.write s Reg.HOST_IOT_LCS (lcsSecureWord c)) Reg.HOST_IOT_LCS

/-- The report of a lifecycle register whose validity field is not Valid. -/
def invalidReport (c : SdkConsts) (v : Nat) : List (String × List Nat) :=
  if lcsIsValidField c v ≠ c.LCS_IS_VALID_Valid then [("LCS is invalid! \n", [])] else []

/-- The report of a lifecycle register whose state field is not Secure. -/
def notSecureReport (c : SdkConsts) (v : Nat) : List (String × List Nat) :=
  if lcsField c v ≠ c.LCS_Secure then [("LCS not secure! \n", [])] else []

/-- The six register writes of a provisioning run, in order. -/
def provisioningWrites (c : SdkConsts) : List (Reg × Nat) :=
  [(Reg.ENABLE, 1), (Reg.HOST_IOT_LCS, lcsSecureWord c),
   (Reg.HOST_IOT_KDR0, 0xBADEBA11), (Reg.HOST_IOT_KDR1, 0xBADEBA11),
   (Reg.HOST_IOT_KDR2, 0xBADEBA11), (Reg.HOST_IOT_KDR3, 0xBADEBA11)]

/-- The hardware state after a list of register writes. -/
def applyWrites {σ : Type} (H : Hardware σ) (s : σ) (ws : List (Reg × Nat)) : σ :=
  ws.foldl (fun t p => H.write t p.1 p.2) s

/-- The arguments with which `key_derivation` calls the KDF for the device-id
words `d0` and `d1`. -/
def referenceCall (d0 d1 : Nat) : KdfCall :=
  { keyType := SaSiUtilKeyType.SASI_UTIL_ROOT_KEY
    userKey := none
    label := key_label
    labelSize := 11
    context := wordBytes d0 ++ wordBytes d1
    contextSize := 8
    outSize := 16 }

/-- What `key_derivation` does when entered in hardware state `hs`: it reads the
two device-id words, calls the KDF, and prints the error message with the
status code if the status is not `SASI_UTIL_OK`, the success message otherwise. -/
def derivationTrace {σ : Type} (H : Hardware σ) (kdf : Kdf σ) (c : SdkConsts) (hs : σ) :
    List Event :=
  [Event.read Reg.DEVICEID0 (H.readback hs Reg.DEVICEID0),
   Event.read Reg.DEVICEID1 (H.readback hs Reg.DEVICEID1),
   Event.kdf (referenceCall (H.readback hs Reg.DEVICEID0) (H.readback hs Reg.DEVICEID1)),
   if (kdf hs (referenceCall (H.readback hs Reg.DEVICEID0) (H.readback hs Reg.DEVICEID1))
        (fun _ => 0)).1 ≠ c.SASI_UTIL_OK
    then Event.print "Error wile deriving key. Err code: %u\n"
      [(kdf hs (referenceCall (H.readback hs Reg.DEVICEID0) (H.readback hs Reg.DEVICEID1))
        (fun _ => 0)).1]
    else Event.print "Successfully derived key \n" []]

/-! ## Shared lemmas: what each function does to the hardware and the trace -/

theorem set_lcs_secure_hw {σ : Type} (H : Hardware σ) (c : SdkConsts) (w : World σ) :
    (set_lcs_secure H c w).hw = H.write w.hw Reg.HOST_IOT_LCS (lcsSecureWord c) := by
  simp only [set_lcs_secure, regRead, regWrite, INTEG_TEST_PRINT]
  split_ifs <;> rfl

theorem set_lcs_secure_trace {σ : Type} (H : Hardware σ) (c : SdkConsts) (w : World σ) :
    (set_lcs_secure H c w).trace =
      w.trace ++
        ([Event.write Reg.HOST_IOT_LCS (lcsSecureWord c),
          Event.read Reg.HOST_IOT_LCS (lcsReadback H c w.hw),
          Event.read Reg.HOST_IOT_LCS (lcsReadback H c w.hw)] ++
         (invalidReport c (lcsReadback H c w.hw)).map (fun p => Event.print p.1 p.2) ++
         [Event.read Reg.HOST_IOT_LCS (lcsReadback H c w.hw)] ++
         (notSecureReport c (lcsReadback H c w.hw)).map (fun p => Event.print p.1 p.2)) := by
  simp only [set_lcs_secure, regRead, regWrite, INTEG_TEST_PRINT, invalidReport,
    notSecureReport, lcsReadback]
  split_ifs <;> simp

theorem is_kdr_set_fst {σ : Type} (H : Hardware σ) (w : World σ) :
    (is_kdr_set H w).1 = if H.readback w.hw Reg.HOST_IOT_KDR0 = 1 then some true else none := by
  simp only [is_kdr_set, regRead]
  split_ifs <;> rfl

theorem is_kdr_set_hw {σ : Type} (H : Hardware σ) (w : World σ) :
    (is_kdr_set H w).2.hw = w.hw := by
  simp only [is_kdr_set, regRead]
  split_ifs <;> rfl

theorem is_kdr_set_trace {σ : Type} (H : Hardware σ) (w : World σ) :
    (is_kdr_set H w).2.trace =
      w.trace ++ List.replicate (if H.readback w.hw Reg.HOST_IOT_KDR0 = 1 then 4 else 1)
        (Event.read Reg.HOST_IOT_KDR0 (H.readback w.hw Reg.HOST_IOT_KDR0)) := by
  simp only [is_kdr_set, regRead]
  split_ifs <;> simp [List.replicate]

theorem prints_map_print (l : List (String × List Nat)) :
    prints (l.map (fun p => Event.print p.1 p.2)) = l := by
  induction l with
  | nil => rfl
  | cons a t ih => simpa [prints] using ih

theorem regAccesses_map_print (l : List (String × List Nat)) :
    regAccesses (l.map (fun p => Event.print p.1 p.2)) = [] := by
  induction l with
  | nil => rfl
  | cons a t ih => simpa [regAccesses] using ih

theorem regWrites_map_print (l : List (String × List Nat)) :
    regWrites (l.map (fun p => Event.print p.1 p.2)) = [] := by
  induction l with
  | nil => rfl
  | cons a t ih => simp [regWrites]

theorem prints_append (a b : List Event) : prints (a ++ b) = prints a ++ prints b := by
  simp [prints]

theorem regAccesses_append (a b : List Event) :
    regAccesses (a ++ b) = regAccesses a ++ regAccesses b := by
  simp [regAccesses]

theorem regWrites_append (a b : List Event) :
    regWrites (a ++ b) = regWrites a ++ regWrites b := by
  simp [regWrites]

theorem kdfCalls_append (a b : List Event) : kdfCalls (a ++ b) = kdfCalls a ++ kdfCalls b := by
  simp [kdfCalls]

/-! ## is_kdr_set -/

/-- On no backend and in no state does `is_kdr_set` return `false`. -/
theorem is_kdr_set_ne_false {σ : Type} (H : Hardware σ) (w : World σ) :
    (is_kdr_set H w).1 ≠ some false := by
  rw [is_kdr_set_fst]
  split_ifs <;> simp

/-- C1.  With `HOST_IOT_KDR0` reading 1 and `HOST_IOT_KDR1`, `HOST_IOT_KDR2`,
`HOST_IOT_KDR3` reading 0, `is_kdr_set` returns `true` after four reads of
`HOST_IOT_KDR0` and no read of the other three registers. -/
theorem is_kdr_set_true_on_kdr0_only :
    kdr0OnlyState Reg.HOST_IOT_KDR0 = 1 ∧ kdr0OnlyState Reg.HOST_IOT_KDR1 = 0 ∧
    kdr0OnlyState Reg.HOST_IOT_KDR2 = 0 ∧ kdr0OnlyState Reg.HOST_IOT_KDR3 = 0 ∧
    (is_kdr_set lockedHw (World.init kdr0OnlyState)).1 = some true ∧
    (is_kdr_set lockedHw (World.init kdr0OnlyState)).2.trace =
      [Event.read Reg.HOST_IOT_KDR0 1, Event.read Reg.HOST_IOT_KDR0 1,
       Event.read Reg.HOST_IOT_KDR0 1, Event.read Reg.HOST_IOT_KDR0 1] := by
  decide

/-- C2.  With all four root-key registers reading 0, `is_kdr_set` reads
`HOST_IOT_KDR0` once and ends without returning a value. -/
theorem is_kdr_set_no_value_on_unset :
    resetState Reg.HOST_IOT_KDR0 = 0 ∧ resetState Reg.HOST_IOT_KDR1 = 0 ∧
    resetState Reg.HOST_IOT_KDR2 = 0 ∧ resetState Reg.HOST_IOT_KDR3 = 0 ∧
    (is_kdr_set lockedHw (World.init resetState)).1 = none ∧
    (is_kdr_set lockedHw (World.init resetState)).2.trace =
      [Event.read Reg.HOST_IOT_KDR0 0] := by
  decide

/-! ## set_lcs_secure -/

/-- C3.  For every backend and initial state, with `v` the value the lifecycle
register reads back as after the write: `set_lcs_secure` prints
"LCS is invalid! " exactly when the validity field of `v` is not Valid, prints
"LCS not secure! " exactly when the state field of `v` is not Secure, prints
both (in that order) when both fail, and prints nothing exactly when `v` is
Valid and Secure. -/
theorem set_lcs_secure_reports {σ : Type} (H : Hardware σ) (c : SdkConsts) (s : σ) :
    prints (set_lcs_secure H c (World.init s)).trace =
        invalidReport c (lcsReadback H c s) ++ notSecureReport c (lcsReadback H c s) ∧
    (("LCS is invalid! \n", []) ∈ prints (set_lcs_secure H c (World.init s)).trace ↔
        lcsIsValidField c (lcsReadback H c s) ≠ c.LCS_IS_VALID_Valid) ∧
    (("LCS not secure! \n", []) ∈ prints (set_lcs_secure H c (World.init s)).trace ↔
        lcsField c (lcsReadback H c s) ≠ c.LCS_Secure) ∧
    ((lcsIsValidField c (lcsReadback H c s) ≠ c.LCS_IS_VALID_Valid ∧
        lcsField c (lcsReadback H c s) ≠ c.LCS_Secure) ↔
      prints (set_lcs_secure H c (World.init s)).trace =
        [("LCS is invalid! \n", []), ("LCS not secure! \n", [])]) ∧
    (prints (set_lcs_secure H c (World.init s)).trace = [] ↔
      (lcsIsValidField c (lcsReadback H c s) = c.LCS_IS_VALID_Valid ∧
        lcsField c (lcsReadback H c s) = c.LCS_Secure)) := by
  have hp : prints (set_lcs_secure H c (World.init s)).trace =
      invalidReport c (lcsReadback H c s) ++ notSecureReport c (lcsReadback H c s) := by
    rw [set_lcs_secure_trace]
    simp only [World.init, List.nil_append, prints_append, prints_map_print]
    simp [prints]
  rw [hp]
  refine ⟨rfl, ?_, ?_, ?_, ?_⟩ <;>
    by_cases h1 : lcsIsValidField c (lcsReadback H c s) = c.LCS_IS_VALID_Valid <;>
    by_cases h2 : lcsField c (lcsReadback H c s) = c.LCS_Secure <;>
    simp [invalidReport, notSecureReport, h1, h2]

/-- C10.  For every backend and initial state, `set_lcs_secure` accesses the
lifecycle register four times and no other register: one write of the Secure
value shifted to the state field, then three reads; the first read is
discarded, the validity message (if any) follows the second read and the state
message (if any) follows the third. -/
theorem set_lcs_secure_access_sequence {σ : Type} (H : Hardware σ) (c : SdkConsts) (s : σ) :
    regAccesses (set_lcs_secure H c (World.init s)).trace =
        [Event.write Reg.HOST_IOT_LCS ((c.LCS_Secure <<< c.LCS_Pos) % 2 ^ 32),
         Event.read Reg.HOST_IOT_LCS (lcsReadback H c s),
         Event.read Reg.HOST_IOT_LCS (lcsReadback H c s),
         Event.read Reg.HOST_IOT_LCS (lcsReadback H c s)] ∧
    regWrites (set_lcs_secure H c (World.init s)).trace =
        [(Reg.HOST_IOT_LCS, (c.LCS_Secure <<< c.LCS_Pos) % 2 ^ 32)] ∧
    (set_lcs_secure H c (World.init s)).trace =
        [Event.write Reg.HOST_IOT_LCS ((c.LCS_Secure <<< c.LCS_Pos) % 2 ^ 32),
         Event.read Reg.HOST_IOT_LCS (lcsReadback H c s),
         Event.read Reg.HOST_IOT_LCS (lcsReadback H c s)] ++
        (invalidReport c (lcsReadback H c s)).map (fun p => Event.print p.1 p.2) ++
        [Event.read Reg.HOST_IOT_LCS (lcsReadback H c s)] ++
        (notSecureReport c (lcsReadback H c s)).map (fun p => Event.print p.1 p.2) := by
  have ht := set_lcs_secure_trace H c (World.init s)
  simp only [World.init, List.nil_append] at ht
  simp only [World.init]
  rw [ht]
  refine ⟨?_, ?_, rfl⟩
  · simp only [regAccesses_append, regAccesses_map_print]
    simp [regAccesses, lcsSecureWord]
  · simp only [regWrites_append, regWrites_map_print]
    simp [regWrites, lcsSecureWord]

/-! ## set_kdr -/

/-- The hardware state in which `set_kdr` calls `is_kdr_set`: the initial state
after the six provisioning writes. -/
theorem set_kdr_hw {σ : Type} (H : Hardware σ) (c : SdkConsts) (indet : Bool) (w : World σ) :
    (set_kdr H c indet w).2.hw = applyWrites H w.hw (provisioningWrites c) := by
  simp only [set_kdr]
  split_ifs <;>
    simp [INTEG_TEST_PRINT, is_kdr_set_hw, regWrite, set_lcs_secure_hw, applyWrites,
      provisioningWrites]

/-- The whole trace of `set_kdr`. -/
theorem set_kdr_trace {σ : Type} (H : Hardware σ) (c : SdkConsts) (indet : Bool) (w : World σ) :
    (set_kdr H c indet w).2.trace =
      w.trace ++
        ([Event.write Reg.ENABLE 1,
          Event.write Reg.HOST_IOT_LCS (lcsSecureWord c),
          Event.read Reg.HOST_IOT_LCS (lcsReadback H c (H.write w.hw Reg.ENABLE 1)),
          Event.read Reg.HOST_IOT_LCS (lcsReadback H c (H.write w.hw Reg.ENABLE 1))] ++
         (invalidReport c (lcsReadback H c (H.write w.hw Reg.ENABLE 1))).map
            (fun p => Event.print p.1 p.2) ++
         [Event.read Reg.HOST_IOT_LCS (lcsReadback H c (H.write w.hw Reg.ENABLE 1))] ++
         (notSecureReport c (lcsReadback H c (H.write w.hw Reg.ENABLE 1))).map
            (fun p => Event.print p.1 p.2) ++
         [Event.write Reg.HOST_IOT_KDR0 0xBADEBA11, Event.write Reg.HOST_IOT_KDR1 0xBADEBA11,
          Event.write Reg.HOST_IOT_KDR2 0xBADEBA11, Event.write Reg.HOST_IOT_KDR3 0xBADEBA11] ++
         List.replicate
            (if H.readback (applyWrites H w.hw (provisioningWrites c)) Reg.HOST_IOT_KDR0 = 1
              then 4 else 1)
            (Event.read Reg.HOST_IOT_KDR0
              (H.readback (applyWrites H w.hw (provisioningWrites c)) Reg.HOST_IOT_KDR0)) ++
         (if H.readback (applyWrites H w.hw (provisioningWrites c)) Reg.HOST_IOT_KDR0 = 1 ∨
              indet = true
            then [] else [Event.print "KDR not set correctly\n" []])) := by
  simp only [set_kdr, is_kdr_set_fst, is_kdr_set_trace, is_kdr_set_hw, INTEG_TEST_PRINT,
    regWrite, set_lcs_secure_hw, set_lcs_secure_trace, applyWrites, provisioningWrites,
    List.foldl_cons, List.foldl_nil]
  by_cases hk : H.readback (H.write (H.write (H.write (H.write (H.write (H.write w.hw Reg.ENABLE 1)
      Reg.HOST_IOT_LCS (lcsSecureWord c)) Reg.HOST_IOT_KDR0 0xBADEBA11)
      Reg.HOST_IOT_KDR1 0xBADEBA11) Reg.HOST_IOT_KDR2 0xBADEBA11)
      Reg.HOST_IOT_KDR3 0xBADEBA11) Reg.HOST_IOT_KDR0 = 1 <;>
    cases indet <;> simp [hk, is_kdr_set_trace]

/-- The register writes of `set_kdr` are the six provisioning writes. -/
theorem regWrites_set_kdr {σ : Type} (H : Hardware σ) (c : SdkConsts) (indet : Bool)
    (s : σ) :
    regWrites (set_kdr H c indet (World.init s)).2.trace = provisioningWrites c := by
  rw [set_kdr_trace]
  simp only [World.init, List.nil_append, regWrites_append, regWrites_map_print]
  split_ifs <;> simp [regWrites, provisioningWrites, List.replicate]

/-- C7.  For every backend, initial state and indeterminate value, the register
writes of `set_kdr` are exactly `ENABLE := 1`, the lifecycle register := Secure
shifted to the state field, then `HOST_IOT_KDR0` to `HOST_IOT_KDR3` := 0xBADEBA11
in that order; in the sequence of all register accesses the four key writes
come after the `ENABLE` write and the four lifecycle accesses, and the
verification reads of `is_kdr_set` come after the four key writes. -/
theorem set_kdr_write_sequence {σ : Type} (H : Hardware σ) (c : SdkConsts) (indet : Bool)
    (s : σ) :
    regWrites (set_kdr H c indet (World.init s)).2.trace =
        [(Reg.ENABLE, 1), (Reg.HOST_IOT_LCS, (c.LCS_Secure <<< c.LCS_Pos) % 2 ^ 32),
         (Reg.HOST_IOT_KDR0, 0xBADEBA11), (Reg.HOST_IOT_KDR1, 0xBADEBA11),
         (Reg.HOST_IOT_KDR2, 0xBADEBA11), (Reg.HOST_IOT_KDR3, 0xBADEBA11)] ∧
    regAccesses (set_kdr H c indet (World.init s)).2.trace =
        [Event.write Reg.ENABLE 1,
         Event.write Reg.HOST_IOT_LCS ((c.LCS_Secure <<< c.LCS_Pos) % 2 ^ 32),
         Event.read Reg.HOST_IOT_LCS (lcsReadback H c (H.write s Reg.ENABLE 1)),
         Event.read Reg.HOST_IOT_LCS (lcsReadback H c (H.write s Reg.ENABLE 1)),
         Event.read Reg.HOST_IOT_LCS (lcsReadback H c (H.write s Reg.ENABLE 1)),
         Event.write Reg.HOST_IOT_KDR0 0xBADEBA11, Event.write Reg.HOST_IOT_KDR1 0xBADEBA11,
         Event.write Reg.HOST_IOT_KDR2 0xBADEBA11, Event.write Reg.HOST_IOT_KDR3 0xBADEBA11] ++
        List.replicate
          (if H.readback (applyWrites H s (provisioningWrites c)) Reg.HOST_IOT_KDR0 = 1
            then 4 else 1)
          (Event.read Reg.HOST_IOT_KDR0
            (H.readback (applyWrites H s (provisioningWrites c)) Reg.HOST_IOT_KDR0)) := by
  rw [set_kdr_trace]
  simp only [World.init, List.nil_append, regWrites_append, regWrites_map_print,
    regAccesses_append, regAccesses_map_print]
  constructor
  · split_ifs <;> simp [regWrites, lcsSecureWord, List.replicate]
  · split_ifs <;> simp [regAccesses, lcsSecureWord, List.replicate]

/-- C5, as stated, fails.  Three runs of `set_kdr` hand the same (empty) result
to the caller: one on locked registers in which both lifecycle checks fail
while `is_kdr_set` returns true, one on locked registers in which the root-key
check is reported as failed too, and one on a working CC310 in which nothing is
reported. -/
theorem set_kdr_failure_not_propagated :
    prints (set_kdr lockedHw nrf52840 false (World.init kdr0OnlyState)).2.trace =
        [("LCS is invalid! \n", []), ("LCS not secure! \n", [])] ∧
    prints (set_kdr lockedHw nrf52840 false (World.init resetState)).2.trace =
        [("LCS is invalid! \n", []), ("LCS not secure! \n", []),
         ("KDR not set correctly\n", [])] ∧
    prints (set_kdr cc310 nrf52840 false (World.init resetState)).2.trace = [] ∧
    (set_kdr lockedHw nrf52840 false (World.init kdr0OnlyState)).1 =
        (set_kdr cc310 nrf52840 false (World.init resetState)).1 ∧
    (set_kdr lockedHw nrf52840 false (World.init resetState)).1 =
        (set_kdr cc310 nrf52840 false (World.init resetState)).1 ∧
    regWrites (set_kdr lockedHw nrf52840 false (World.init kdr0OnlyState)).2.trace =
        regWrites (set_kdr cc310 nrf52840 false (World.init resetState)).2.trace := by
  decide

/-- C5, amended.  `set_kdr` hands no status to its caller.  For every backend,
initial state and indeterminate value it performs the six provisioning writes
and leaves the hardware in the state they produce, whatever was reported; its
messages are the validity report and the state report of the lifecycle
register followed by "KDR not set correctly" unless `HOST_IOT_KDR0` reads 1 after
the writes (`is_kdr_set` returns true) or `is_kdr_set` returns nothing and the
caller observes true. -/
theorem set_kdr_reports_only {σ : Type} (H : Hardware σ) (c : SdkConsts) (indet : Bool)
    (s : σ) :
    (set_kdr H c indet (World.init s)).1 = () ∧
    (set_kdr H c indet (World.init s)).2.hw = applyWrites H s (provisioningWrites c) ∧
    regWrites (set_kdr H c indet (World.init s)).2.trace = provisioningWrites c ∧
    prints (set_kdr H c indet (World.init s)).2.trace =
        invalidReport c (lcsReadback H c (H.write s Reg.ENABLE 1)) ++
        notSecureReport c (lcsReadback H c (H.write s Reg.ENABLE 1)) ++
        (if H.readback (applyWrites H s (provisioningWrites c)) Reg.HOST_IOT_KDR0 = 1 ∨
            indet = true
          then [] else [("KDR not set correctly\n", [])]) := by
  refine ⟨rfl, ?_, ?_, ?_⟩
  · rw [set_kdr_hw]; rfl
  · exact regWrites_set_kdr H c indet s
  · rw [set_kdr_trace]
    simp only [World.init, List.nil_append, prints_append, prints_map_print]
    split_ifs <;> simp [prints, List.replicate]

/-! ## key_derivation -/

/-- The label has 11 bytes and the context 8, so the sizes passed to the KDF are
those of `referenceCall`. -/
theorem key_label_length : key_label.length = 11 := by
  decide

theorem wordBytes_length (x : Nat) : (wordBytes x).length = 4 := by
  simp [wordBytes]

/-- The whole trace of `key_derivation`. -/
theorem key_derivation_trace {σ : Type} (H : Hardware σ) (kdf : Kdf σ) (c : SdkConsts)
    (w : World σ) :
    (key_derivation H kdf c w).2.trace = w.trace ++ derivationTrace H kdf c w.hw := by
  simp only [key_derivation, key_derivation_body, regRead, INTEG_TEST_PRINT, referenceCall,
    List.length_append, wordBytes_length, key_label_length, derivationTrace]
  split_ifs <;> simp

theorem kdfCalls_derivationTrace {σ : Type} (H : Hardware σ) (kdf : Kdf σ) (c : SdkConsts)
    (hs : σ) :
    kdfCalls (derivationTrace H kdf c hs) =
      [referenceCall (H.readback hs Reg.DEVICEID0) (H.readback hs Reg.DEVICEID1)] := by
  simp only [derivationTrace]
  split_ifs <;> simp [kdfCalls]

theorem regWrites_derivationTrace {σ : Type} (H : Hardware σ) (kdf : Kdf σ) (c : SdkConsts)
    (hs : σ) :
    regWrites (derivationTrace H kdf c hs) = [] := by
  simp only [derivationTrace]
  split_ifs <;> simp [regWrites]

theorem kdfCalls_set_kdr {σ : Type} (H : Hardware σ) (c : SdkConsts) (indet : Bool)
    (s : σ) :
    kdfCalls (set_kdr H c indet (World.init s)).2.trace = [] := by
  rw [set_kdr_trace]
  simp only [World.init, List.nil_append, kdfCalls_append]
  split_ifs <;> simp [kdfCalls, invalidReport, notSecureReport, List.replicate]

/-- C4.  For every backend, every KDF (whatever status it reports and whatever it
writes into the output buffer) and every starting point, each of the 16 bytes
of `secret_key` is zero when `key_derivation` returns. -/
theorem key_derivation_buffer_zeroed {σ : Type} (H : Hardware σ) (kdf : Kdf σ)
    (c : SdkConsts) (w : World σ) (i : Fin 16) :
    (key_derivation H kdf c w).1 i = 0 := by
  simp [key_derivation, key_derivation_body, SaSi_PalMemSetZero, regRead]

/-- C9.  For every backend, KDF and initial state, with `d0` and `d1` the two
device-id words: `key_derivation` calls the KDF exactly once, with the root-key
selector, no user key, the 11 bytes of "KEY ENC KEY" and size 11, the 8 bytes
of `d0` followed by those of `d1` and size 8, and output size 16; it prints
exactly one message, the error message with the status code if the status is
not `SASI_UTIL_OK` and the success message otherwise; and after the two
device-id reads the run consists of the KDF call followed by that message. -/
theorem key_derivation_kdf_call {σ : Type} (H : Hardware σ) (kdf : Kdf σ) (c : SdkConsts)
    (s : σ) :
    kdfCalls (key_derivation H kdf c (World.init s)).2.trace =
        [{ keyType := SaSiUtilKeyType.SASI_UTIL_ROOT_KEY
           userKey := none
           label := "KEY ENC KEY".toList.map Char.toNat
           labelSize := 11
           context := wordBytes (H.readback s Reg.DEVICEID0) ++
             wordBytes (H.readback s Reg.DEVICEID1)
           contextSize := 8
           outSize := 16 }] ∧
    prints (key_derivation H kdf c (World.init s)).2.trace =
        [if (kdf s (referenceCall (H.readback s Reg.DEVICEID0) (H.readback s Reg.DEVICEID1))
              (fun _ => 0)).1 ≠ c.SASI_UTIL_OK
          then ("Error wile deriving key. Err code: %u\n",
            [(kdf s (referenceCall (H.readback s Reg.DEVICEID0) (H.readback s Reg.DEVICEID1))
              (fun _ => 0)).1])
          else ("Successfully derived key \n", [])] ∧
    ((key_derivation H kdf c (World.init s)).2.trace.drop 2).map
        (fun e => match e with
          | Event.kdf _ => 1
          | Event.print _ _ => 2
          | _ => 0) = [1, 2] ∧
    ("KEY ENC KEY".toList.map Char.toNat).length = 11 ∧
    (wordBytes (H.readback s Reg.DEVICEID0) ++ wordBytes (H.readback s Reg.DEVICEID1)).length
        = 8 := by
  rw [key_derivation_trace]
  simp only [derivationTrace, World.init, List.nil_append]
  refine ⟨?_, ?_, ?_, by decide, by simp [wordBytes]⟩
  · split_ifs <;> simp [World.init, kdfCalls, referenceCall, key_label]
  · split_ifs <;> simp [World.init, prints]
  · split_ifs <;> simp [World.init]

/-- The label and context of `key_derivation` are fixed arrays: on every run the
KDF is called exactly once, with a label of 11 bytes and a context of 8 bytes,
each passed whole with its true size, so neither ever exceeds the 64-byte
maximum. -/
theorem key_derivation_sizes_within_bound {σ : Type} (H : Hardware σ) (kdf : Kdf σ)
    (c : SdkConsts) (s : σ) :
    (kdfCalls (key_derivation H kdf c (World.init s)).2.trace).map
        (fun k => (k.label.length, k.labelSize, k.context.length, k.contextSize)) =
      [(11, 11, 8, 8)] ∧
    (kdfCalls (key_derivation H kdf c (World.init s)).2.trace).all
        (fun k => decide (k.labelSize ≤ 64) && decide (k.contextSize ≤ 64)) = true := by
  rw [key_derivation_trace, kdfCalls_append, kdfCalls_derivationTrace]
  simp [World.init, kdfCalls, referenceCall, key_label_length, wordBytes_length]

/-! ## main -/

/-- C6, as stated, fails.  On locked registers with `HOST_IOT_KDR0` reading 1 and
a successful setup, `main` reports both lifecycle failures and then calls the
KDF; on locked registers with `HOST_IOT_KDR0` reading 0 it reports the failed
root-key check as well and then calls the KDF. -/
theorem main_derives_after_failed_provisioning :
    (main lockedHw (stubKdf 0) nrf52840 false 0 (World.init kdr0OnlyState)).2.trace =
      [Event.write Reg.ENABLE 1,
       Event.write Reg.HOST_IOT_LCS 2,
       Event.read Reg.HOST_IOT_LCS 0,
       Event.read Reg.HOST_IOT_LCS 0,
       Event.print "LCS is invalid! \n" [],
       Event.read Reg.HOST_IOT_LCS 0,
       Event.print "LCS not secure! \n" [],
       Event.write Reg.HOST_IOT_KDR0 0xBADEBA11,
       Event.write Reg.HOST_IOT_KDR1 0xBADEBA11,
       Event.write Reg.HOST_IOT_KDR2 0xBADEBA11,
       Event.write Reg.HOST_IOT_KDR3 0xBADEBA11,
       Event.read Reg.HOST_IOT_KDR0 1,
       Event.read Reg.HOST_IOT_KDR0 1,
       Event.read Reg.HOST_IOT_KDR0 1,
       Event.read Reg.HOST_IOT_KDR0 1,
       Event.read Reg.DEVICEID0 0x01020304,
       Event.read Reg.DEVICEID1 0x05060708,
       Event.kdf (referenceCall 0x01020304 0x05060708),
       Event.print "Successfully derived key \n" []] ∧
    prints (main lockedHw (stubKdf 0) nrf52840 false 0 (World.init resetState)).2.trace =
      [("LCS is invalid! \n", []), ("LCS not secure! \n", []),
       ("KDR not set correctly\n", []), ("Successfully derived key \n", [])] ∧
    kdfCalls (main lockedHw (stubKdf 0) nrf52840 false 0 (World.init resetState)).2.trace =
      [referenceCall 0x01020304 0x05060708] := by
  decide

/-- C6, amended.  `main` returns what `integration_tests_setup` returned.  When
that is 0 it runs `set_kdr` and then `key_derivation`, whatever `set_kdr`
reported: the six provisioning writes are made and the KDF is called exactly
once, after all of `set_kdr`.  When it is not 0, `main` prints
"integration_tests_setup failed" and does nothing else. -/
theorem main_always_derives_after_setup {σ : Type} (H : Hardware σ) (kdf : Kdf σ)
    (c : SdkConsts) (indet : Bool) (setupRet : Int) (s : σ) :
    (main H kdf c indet setupRet (World.init s)).1 = setupRet ∧
    (main H kdf c indet setupRet (World.init s)).2.trace =
      (if setupRet = 0 then
        (set_kdr H c indet (World.init s)).2.trace ++
          derivationTrace H kdf c (applyWrites H s (provisioningWrites c))
       else [Event.print "integration_tests_setup failed\n" []]) ∧
    regWrites (main H kdf c indet setupRet (World.init s)).2.trace =
      (if setupRet = 0 then provisioningWrites c else []) ∧
    kdfCalls (main H kdf c indet setupRet (World.init s)).2.trace =
      (if setupRet = 0 then
        [referenceCall (H.readback (applyWrites H s (provisioningWrites c)) Reg.DEVICEID0)
          (H.readback (applyWrites H s (provisioningWrites c)) Reg.DEVICEID1)]
       else []) := by
  by_cases h : setupRet = 0
  · subst h
    have ht : (main H kdf c indet 0 (World.init s)).2.trace =
        (set_kdr H c indet (World.init s)).2.trace ++
          derivationTrace H kdf c (applyWrites H s (provisioningWrites c)) := by
      simp only [main, ne_eq, not_true_eq_false, if_false]
      rw [key_derivation_trace, set_kdr_hw]
      rfl
    refine ⟨by simp [main], by simp [ht], ?_, ?_⟩
    · rw [ht, regWrites_append, regWrites_derivationTrace, regWrites_set_kdr]
      simp
    · rw [ht, kdfCalls_append, kdfCalls_derivationTrace, kdfCalls_set_kdr]
      simp
  · simp [main, h, INTEG_TEST_PRINT, World.init, regWrites, kdfCalls]

end KdrExample
